import Mathlib

/-!
# Verification of the RSD void-galaxy model fitting code

Shallow embedding of `python_tools/rsdmodel.py` (class `RSDModel`) and
`python_tools/mcmc.py` (function `log_probability`).

Conventions used throughout:

* Python floats are modelled as exact numbers: rationals (`ℚ`) where the
  relevant code is pure arithmetic and comparisons (so the embedding stays
  executable and decidable), reals (`ℝ`) where `np.sqrt` / `np.log` appear.
* numpy array routines (`np.trapz`, `scipy.integrate.simps`, `np.linspace`,
  `np.unique`) are translated element by element from their documented
  algorithms.
* `scipy.interpolate.InterpolatedUnivariateSpline(x, y, k=3)` is modelled by
  `polyInterp`, polynomial (Lagrange) interpolation through the samples.  For
  data sets of exactly `k + 1 = 4` samples the scipy spline has no interior
  knots and *is* the unique interpolating cubic, so on 4-sample profiles the
  model is exact; concrete instances below always use 4-sample data.  The
  `ext` keyword (0 = extrapolate the polynomial, 3 = clamp to the boundary
  value) is modelled by `splineEval`.
* A Python expression that raises (tuple-unpacking `ValueError`, unbound-name
  `NameError`, out-of-range indexing) is modelled by `Option`, with `none`
  for the raising computation.
-/

namespace RSDModel

section NumericUtils

variable {α : Type} [LinearOrderedField α]

/-- `np.linspace a b n`: `n` evenly spaced samples from `a` to `b` inclusive. -/
def linspace (a b : α) (n : ℕ) : List α :=
  (List.range n).map (fun i : ℕ => a + (b - a) * (i : α) / ((n : α) - 1))

/-- `np.trapz y x`: composite trapezoidal rule,
`Σ (x[i+1] - x[i]) * (y[i] + y[i+1]) / 2`. -/
def trapz : List α → List α → α
  | y0 :: y1 :: ys, x0 :: x1 :: xs =>
      (x1 - x0) * (y0 + y1) / 2 + trapz (y1 :: ys) (x1 :: xs)
  | _, _ => 0

/-- Core of `scipy.integrate.simps` for an odd number of samples: composite
Simpson rule on consecutive interval pairs, in the general (possibly
non-uniform) spacing form used by scipy. -/
def simpsOdd : List α → List α → α
  | y0 :: y1 :: y2 :: ys, x0 :: x1 :: x2 :: xs =>
      let h0 := x1 - x0
      let h1 := x2 - x1
      (h0 + h1) / 6 *
          (y0 * (2 - h1 / h0) + y1 * (h0 + h1) ^ 2 / (h0 * h1) + y2 * (2 - h0 / h1)) +
        simpsOdd (y2 :: ys) (x2 :: xs)
  | _, _ => 0

/-- `scipy.integrate.simps(y, x)`: Simpson quadrature; for an even number of
samples scipy's default `even = 'avg'` averages the two ways of handling the
leftover interval (trapezoid on the first or on the last interval). -/
def simps (ys xs : List α) : α :=
  let n := xs.length
  if n % 2 = 1 then simpsOdd ys xs
  else
    (simpsOdd (ys.take (n - 1)) (xs.take (n - 1)) + trapz (ys.drop (n - 2)) (xs.drop (n - 2)) +
        trapz (ys.take 2) (xs.take 2) + simpsOdd (ys.drop 1) (xs.drop 1)) / 2

/-- Interpolating polynomial through the samples `(xs i, ys i)` in Lagrange
form; models `InterpolatedUnivariateSpline(xs, ys, k=3)` (exact for 4-sample
data, where the scipy spline is the unique interpolating cubic). -/
def polyInterp (xs ys : List α) (t : α) : α :=
  ((List.range xs.length).map (fun j =>
    ys.getD j 0 *
      ((List.range xs.length).map (fun k =>
        if k = j then 1 else (t - xs.getD k 0) / (xs.getD j 0 - xs.getD k 0))).prod)).sum

/-- Evaluation of `InterpolatedUnivariateSpline(xs, ys, k=3, ext=ext)`:
`ext = 3` returns the boundary sample value outside the sampled range
(scipy: "return the boundary value"), any other `ext` used by this code
(the default `ext = 0`) evaluates the polynomial everywhere. -/
def splineEval (xs ys : List α) (ext : ℕ) (t : α) : α :=
  if ext = 3 then
    if t < xs.headD 0 then ys.headD 0
    else if (xs.getLast?).getD 0 < t then (ys.getLast?).getD 0
    else polyInterp xs ys t
  else polyInterp xs ys t

end NumericUtils

/-! ## Likelihood / prior evaluator (`rsdmodel.py`, lines 130-173)

`log_prior` returns `0.0` or `-np.inf`; we model the returned float by
`WithBot ℚ` (`⊥` is `-inf`).  Tuple unpacking of a `theta` of the wrong
length raises `ValueError`, modelled by `none`. -/

/-- `RSDModel.log_prior` (lines 163-173).  Flat priors:
model 1 or 3 expects `theta = (fs8, sigma_v, epsilon)` with
`0.1 < fs8 < 2.0 and 1 < sigma_v < 500 and 0.8 < epsilon < 1.2`;
any other model expects `theta = (fs8, epsilon)` with
`0.1 < fs8 < 2.0 and 0.8 < epsilon < 1.2`. -/
def log_prior (model : ℤ) (theta : List ℚ) : Option (WithBot ℚ) :=
  if model = 1 ∨ model = 3 then
    match theta with
    | [fs8, sigma_v, epsilon] =>
        some (if 0.1 < fs8 ∧ fs8 < 2.0 ∧ 1 < sigma_v ∧ sigma_v < 500 ∧
                 0.8 < epsilon ∧ epsilon < 1.2 then 0 else ⊥)
    | _ => none
  else
    match theta with
    | [fs8, epsilon] =>
        some (if 0.1 < fs8 ∧ fs8 < 2.0 ∧ 0.8 < epsilon ∧ epsilon < 1.2 then 0 else ⊥)
    | _ => none

/-- The theory-evaluator invocation that `RSDModel.log_likelihood` performs.
`theory1`/`theory2` record the calls of lines 141-152 (with the `epsilon`
from which `alpha_perp`/`alpha_para` are derived); `theory3` stands for a
call of `model3_theory`, which exists in the source (lines 298-386) so that
"`log_likelihood` never invokes it" is expressible. -/
inductive TheoryCall where
  | theory1 (fs8 sigma_v epsilon : ℚ)
  | theory2 (fs8 epsilon : ℚ)
  | theory3 (fs8 sigma_v epsilon : ℚ)
deriving DecidableEq

/-- Parameter handling and dispatch of `RSDModel.log_likelihood`
(lines 130-152).  Only `model == 1` unpacks three parameters; every other
model unpacks two (`fs8, epsilon = theta`, a `ValueError` for other lengths).
Models 1 and 3 then call `model1_theory(fs8, sigma_v, ...)`: for model 3 the
name `sigma_v` was never bound, so the call raises `NameError` (`none`). -/
def log_likelihood_dispatch (model : ℤ) (theta : List ℚ) : Option TheoryCall :=
  if model = 1 then
    match theta with
    | [fs8, sigma_v, epsilon] => some (.theory1 fs8 sigma_v epsilon)
    | _ => none
  else
    match theta with
    | [fs8, epsilon] => if model = 3 then none else some (.theory2 fs8 epsilon)
    | _ => none

/-- `log_probability` from `mcmc.py` (lines 10-14): evaluate the prior; if it
is not finite return `-np.inf` without touching the likelihood, otherwise
return `prior + likelihood`.  The likelihood evaluation is passed in as
`ll : Option ℚ` (`none` if evaluating it would raise); the short-circuit is
visible in that `ll` is ignored when the prior is `-inf`. -/
def log_probability (model : ℤ) (theta : List ℚ) (ll : Option ℚ) : Option (WithBot ℚ) :=
  match log_prior model theta with
  | none => none
  | some lp => if lp = ⊥ then some ⊥ else ll.map (fun v => lp + (v : WithBot ℚ))

/-! ## Likelihood value (`rsdmodel.py`, lines 154-161) -/

/-- `self.nmocks = 300` (line 50). -/
def nmocks : ℝ := 300

/-- `chi2 = np.dot(np.dot(modelvec - self.datavec, self.icov), modelvec -
self.datavec)` (line 159): the Mahalanobis form `dᵀ · icov · d` with
`d = modelvec - datavec` (numpy elementwise subtraction); the inverse
covariance matrix is modelled as an entry function. -/
def chi2 (modelvec datavec : List ℝ) (icov : ℕ → ℕ → ℝ) : ℝ :=
  let d := List.zipWith (fun a b => a - b) modelvec datavec
  ((List.range d.length).map (fun j =>
    ((List.range d.length).map (fun i => d.getD i 0 * icov i j)).sum * d.getD j 0)).sum

/-- Lines 154-161 of `log_likelihood`: build `modelvec` (monopole and
quadrupole concatenated when `full_fit`, quadrupole alone otherwise), the
matching `datavec` (lines 124-127), and return
`-self.nmocks/2 * np.log(1 + chi2/(self.nmocks-1))`. -/
noncomputable def log_likelihood_value (full_fit : Bool) (xi0 xi2 xi0_s xi2_s : List ℝ)
    (icov : ℕ → ℕ → ℝ) : ℝ :=
  let modelvec := if full_fit then xi0 ++ xi2 else xi2
  let datavec := if full_fit then xi0_s ++ xi2_s else xi2_s;
  -(nmocks / 2) * Real.log (1 + chi2 modelvec datavec icov / (nmocks - 1))

/-! ## Correlation-function reader (`rsdmodel.py`, lines 389-401) -/

/-- One parsed row of the `(s, mu, xi)` correlation table; `xi` is the
second-to-last column (`data[:, -2]`). -/
structure CorrRow where
  s : ℚ
  mu : ℚ
  xi : ℚ

/-- `np.unique`: the sorted deduplicated values of a column. -/
def npUnique (l : List ℚ) : List ℚ :=
  (l.dedup).insertionSort (fun a b => a ≤ b)

/-- `RSDModel.readCorrFile` (lines 389-401): `s = np.unique(data[:,0])`,
`mu = np.unique(data[:,1])`, and the flat `xi` column reshaped into a
`(len s, len mu)` grid with `xi_smu[j, i] = data[i * len s + j, -2]`
(the source iterates `i` over `mu` outer and `j` over `s` inner with a
running `counter`; indexing past the end of `data` raises, modelled by the
`getD` default never used under the length hypothesis of the theorems). -/
def readCorrFile (rows : List CorrRow) : List ℚ × List ℚ × List (List ℚ) :=
  let s := npUnique (rows.map CorrRow.s)
  let mu := npUnique (rows.map CorrRow.mu)
  let xi_smu := (List.range s.length).map (fun j =>
    (List.range mu.length).map (fun i =>
      ((rows[i * s.length + j]?).map CorrRow.xi).getD 0))
  (s, mu, xi_smu)

/-! ## Profile rescaling and rescaled interpolants
(`model1_theory` lines 184-203, `model2_theory` lines 251-267,
`model3_theory` lines 306-328) -/

/-- The rescaled radius of one sample (lines 188-190, identically 255-257 and
310-312): `np.trapz((r * alpha_para) * np.sqrt(1 + (1 - mus**2) *
(alpha_perp**2 / alpha_para**2 - 1)), mus)` with
`mus = np.linspace(0, 1, 100)`. -/
noncomputable def rescaledRadius (alpha_perp alpha_para r : ℝ) : ℝ :=
  let mus : List ℝ := linspace 0 1 100
  trapz (mus.map (fun m =>
    (r * alpha_para) * Real.sqrt (1 + (1 - m ^ 2) *
      (alpha_perp ^ 2 / alpha_para ^ 2 - 1)))) mus

/-- `self.xi_r = InterpolatedUnivariateSpline(self.r_for_xi, xi_r, k=3, ext=3)`
(line 74). -/
noncomputable def xi_r (r vals : List ℝ) : ℝ → ℝ := splineEval r vals 3

/-- `self.delta_r = ...(self.r_for_delta, delta_r, k=3, ext=3)` (line 80). -/
noncomputable def delta_r (r vals : List ℝ) : ℝ → ℝ := splineEval r vals 3

/-- `self.Delta_r = ...(self.r_for_delta, Delta_r, k=3, ext=3)` (line 86). -/
noncomputable def Delta_r (r vals : List ℝ) : ℝ → ℝ := splineEval r vals 3

/-- `self.sv = ...(self.r_for_sv, sv, k=3, ext=3)` (line 97). -/
noncomputable def sv (r vals : List ℝ) : ℝ → ℝ := splineEval r vals 3

/-- `self.vr = ...(self.r_for_vr, vr, k=3, ext=3)` (line 105). -/
noncomputable def vr (r vals : List ℝ) : ℝ → ℝ := splineEval r vals 3

/-- `self.dvr = ...(self.r_for_vr, dvr, k=3, ext=3)` (line 106). -/
noncomputable def dvr (r vals : List ℝ) : ℝ → ℝ := splineEval r vals 3

/-- Line 199: `rescaled_xi_r = InterpolatedUnivariateSpline(x, y1, k=3)` —
note: no `ext` keyword, so scipy's default `ext=0` (polynomial
extrapolation) applies, unlike every other spline built by this code. -/
noncomputable def model1_rescaled_xi_r (ap aa : ℝ) (x vals : List ℝ) : ℝ → ℝ :=
  splineEval (x.map (rescaledRadius ap aa)) vals 0

/-- Line 200: `rescaled_delta_r = ...(x, y2, k=3, ext=3)`. -/
noncomputable def model1_rescaled_delta_r (ap aa : ℝ) (x vals : List ℝ) : ℝ → ℝ :=
  splineEval (x.map (rescaledRadius ap aa)) vals 3

/-- Line 201: `rescaled_Delta_r = ...(x, y3, k=3, ext=3)`. -/
noncomputable def model1_rescaled_Delta_r (ap aa : ℝ) (x vals : List ℝ) : ℝ → ℝ :=
  splineEval (x.map (rescaledRadius ap aa)) vals 3

/-- Line 202: `rescaled_sv = ...(x, y4, k=3, ext=3)`. -/
noncomputable def model1_rescaled_sv (ap aa : ℝ) (x vals : List ℝ) : ℝ → ℝ :=
  splineEval (x.map (rescaledRadius ap aa)) vals 3

/-- Line 265: `rescaled_xi_r = InterpolatedUnivariateSpline(x, y1, k=3)` —
again without `ext`, so the default `ext=0`. -/
noncomputable def model2_rescaled_xi_r (ap aa : ℝ) (x vals : List ℝ) : ℝ → ℝ :=
  splineEval (x.map (rescaledRadius ap aa)) vals 0

/-- Line 266: `rescaled_delta_r = ...(x, y2, k=3, ext=3)`. -/
noncomputable def model2_rescaled_delta_r (ap aa : ℝ) (x vals : List ℝ) : ℝ → ℝ :=
  splineEval (x.map (rescaledRadius ap aa)) vals 3

/-- Line 267: `rescaled_Delta_r = ...(x, y3, k=3, ext=3)`. -/
noncomputable def model2_rescaled_Delta_r (ap aa : ℝ) (x vals : List ℝ) : ℝ → ℝ :=
  splineEval (x.map (rescaledRadius ap aa)) vals 3

/-- Line 323: `rescaled_xi_r = InterpolatedUnivariateSpline(x, y1, k=3)` —
again without `ext`, so the default `ext=0`. -/
noncomputable def model3_rescaled_xi_r (ap aa : ℝ) (x vals : List ℝ) : ℝ → ℝ :=
  splineEval (x.map (rescaledRadius ap aa)) vals 0

/-- Line 324: `rescaled_delta_r = ...(x, y2, k=3, ext=3)`. -/
noncomputable def model3_rescaled_delta_r (ap aa : ℝ) (x vals : List ℝ) : ℝ → ℝ :=
  splineEval (x.map (rescaledRadius ap aa)) vals 3

/-- Line 325: `rescaled_Delta_r = ...(x, y3, k=3, ext=3)`. -/
noncomputable def model3_rescaled_Delta_r (ap aa : ℝ) (x vals : List ℝ) : ℝ → ℝ :=
  splineEval (x.map (rescaledRadius ap aa)) vals 3

/-- Line 326: `rescaled_vr = ...(x, y4, k=3, ext=3)`. -/
noncomputable def model3_rescaled_vr (ap aa : ℝ) (x vals : List ℝ) : ℝ → ℝ :=
  splineEval (x.map (rescaledRadius ap aa)) vals 3

/-- Line 327: `rescaled_dvr = ...(x, y5, k=3, ext=3)`. -/
noncomputable def model3_rescaled_dvr (ap aa : ℝ) (x vals : List ℝ) : ℝ → ℝ :=
  splineEval (x.map (rescaledRadius ap aa)) vals 3

/-- Line 328: `rescaled_sv = ...(x, y6, k=3, ext=3)`. -/
noncomputable def model3_rescaled_sv (ap aa : ℝ) (x vals : List ℝ) : ℝ → ℝ :=
  splineEval (x.map (rescaledRadius ap aa)) vals 3

/-- The per-`(s, mu)` prediction of `model2_theory` (lines 269-281), with the
rescaled interpolants of lines 259-267.  `r` is the radius grid
(`self.r_for_delta`) and `y1, y2, y3` are the profile samples on it
(`self.xi_r(r)`, `self.delta_r(r)`, `self.Delta_r(r)`); `s8norm` is
`self.s8norm` and `scaled_fs8 = fs8 / self.s8norm` (line 249). -/
noncomputable def model2_xiModel (s8norm fs8 alpha_perp alpha_para : ℝ)
    (r y1 y2 y3 : List ℝ) (s mu : ℝ) : ℝ :=
  let scaled_fs8 := fs8 / s8norm
  let rxi := model2_rescaled_xi_r alpha_perp alpha_para r y1
  let rdelta := model2_rescaled_delta_r alpha_perp alpha_para r y2
  let rDelta := model2_rescaled_Delta_r alpha_perp alpha_para r y3
  let true_sperp := s * Real.sqrt (1 - mu ^ 2) * alpha_perp
  let true_spar := s * mu * alpha_para
  let true_s := Real.sqrt (true_spar ^ 2 + true_sperp ^ 2)
  let true_mu := true_spar / true_s
  let rr := true_s * (1 + scaled_fs8 / 3 * rDelta true_s * true_mu ^ 2);
  rxi rr + scaled_fs8 / 3 * rDelta rr * (1 + rxi rr)
    + scaled_fs8 * true_mu ^ 2 * (rdelta rr - rDelta rr) * (1 + rxi rr)

/-- The trapezoidal stretch factor that `rescaledRadius` applies to every
radius in the geometry `alpha_perp = 2, alpha_para = 1`:
`np.trapz(np.sqrt(1 + (1 - mus**2) * 3), mus)` (a derived constant used to
evaluate the evaluators on concrete inputs). -/
noncomputable def stretchT : ℝ :=
  trapz ((linspace (0:ℝ) 1 100).map (fun m => Real.sqrt (1 + (1 - m ^ 2) * 3)))
    (linspace (0:ℝ) 1 100)

/-! ## Multipole reduction (`_getMonopole`/`_getQuadrupole`, lines 404-421,
and the in-evaluator reduction, lines 228-238) -/

/-- `xaxis = np.linspace(-1, 1, 1000)`. -/
def xaxis1000 : List ℚ := linspace (-1) 1 1000

/-- One row of `_getMonopole` (lines 407-410): build the interpolant of the
per-mu samples and Simpson-integrate `mufunc(xaxis) / 2`. -/
def getMonopole_row (mu vals : List ℚ) : ℚ :=
  simps (xaxis1000.map (fun x => polyInterp mu vals x / 2)) xaxis1000

/-- One row of `_getQuadrupole` (lines 416-419): Simpson-integrate
`mufunc(xaxis) * 5 / 2 * (3 * xaxis**2 - 1) / 2`. -/
def getQuadrupole_row (mu vals : List ℚ) : ℚ :=
  simps (xaxis1000.map (fun x => polyInterp mu vals x * 5 / 2 * (3 * x ^ 2 - 1) / 2))
    xaxis1000

instance : DecidableRel (fun p q : ℚ × ℚ => p.1 ≤ q.1) :=
  fun p q => inferInstanceAs (Decidable (p.1 ≤ q.1))

/-- The per-`s` multipole reduction inside the theory evaluators (lines
228-238): apply `np.argsort(true_mu)` to both sample arrays (modelled as a
stable sort of the zipped pairs by `true_mu`), build the interpolant of the
sorted samples, and Simpson-integrate the same two Legendre-weighted
integrands on the same 1000-point grid. -/
def modelMultipoles (true_mu xi_model : List ℚ) : ℚ × ℚ :=
  let sorted := List.insertionSort (fun p q : ℚ × ℚ => p.1 ≤ q.1) (true_mu.zip xi_model)
  (getMonopole_row (sorted.map Prod.fst) (sorted.map Prod.snd),
   getQuadrupole_row (sorted.map Prod.fst) (sorted.map Prod.snd))

/-! ## Theorems: dispatch, prior and combined log-probability -/

/-- C1: for model id 3, `log_likelihood` never reaches `model3_theory`
(nor any other theory evaluator): its parameter unpacking takes the
two-parameter branch, so a three-parameter `theta` raises `ValueError` and a
two-parameter `theta` hits the unbound name `sigma_v` (`NameError`) in the
`model1_theory` call that the dispatch actually targets.  Every evaluation is
`none`; in particular no `TheoryCall.theory3` (and no `theory1`) is produced,
contradicting the claim that the streaming+coherent-infall prescription
`model3_theory` computes the multipoles for model 3. -/
theorem model3_never_dispatches_to_model3_theory (theta : List ℚ) :
    RSDModel.log_likelihood_dispatch 3 theta = none := by
  cases theta with
  | nil => rfl
  | cons a t =>
    cases t with
    | nil => rfl
    | cons b t2 =>
      cases t2 with
      | nil => rfl
      | cons c t3 => rfl

/-- C2: at the arity each variant declares (3 scalars for models 1 and 3,
2 for model 2), models 1 and 2 successfully unpack `theta` and invoke their
theory evaluator, but model 3 raises (`ValueError` at `fs8, epsilon = theta`):
`log_likelihood` does not return a float for model 3, and no velocity
dispersion amplitude is ever supplied to the streaming evaluator there. -/
theorem log_likelihood_arity_dispatch (fs8 sigma_v epsilon : ℚ) :
    RSDModel.log_likelihood_dispatch 1 [fs8, sigma_v, epsilon] =
        some (.theory1 fs8 sigma_v epsilon) ∧
    RSDModel.log_likelihood_dispatch 2 [fs8, epsilon] = some (.theory2 fs8 epsilon) ∧
    RSDModel.log_likelihood_dispatch 3 [fs8, sigma_v, epsilon] = none :=
  ⟨rfl, rfl, rfl⟩

/-- C4: `log_prior` returns exactly `0.0` iff every parameter lies strictly
inside its flat-prior bounds (`fs8 ∈ (0.1, 2.0)`, `sigma_v ∈ (1, 500)` for
models 1 and 3, `epsilon ∈ (0.8, 1.2)`), and returns `-inf` whenever any
parameter is at or outside a bound. -/
theorem log_prior_flat_bounds (fs8 sigma_v epsilon : ℚ) :
    (RSDModel.log_prior 1 [fs8, sigma_v, epsilon] = some 0 ↔
      (0.1 < fs8 ∧ fs8 < 2.0 ∧ 1 < sigma_v ∧ sigma_v < 500 ∧
        0.8 < epsilon ∧ epsilon < 1.2)) ∧
    (RSDModel.log_prior 3 [fs8, sigma_v, epsilon] = some 0 ↔
      (0.1 < fs8 ∧ fs8 < 2.0 ∧ 1 < sigma_v ∧ sigma_v < 500 ∧
        0.8 < epsilon ∧ epsilon < 1.2)) ∧
    (RSDModel.log_prior 2 [fs8, epsilon] = some 0 ↔
      (0.1 < fs8 ∧ fs8 < 2.0 ∧ 0.8 < epsilon ∧ epsilon < 1.2)) ∧
    (¬ (0.1 < fs8 ∧ fs8 < 2.0 ∧ 1 < sigma_v ∧ sigma_v < 500 ∧
        0.8 < epsilon ∧ epsilon < 1.2) →
      RSDModel.log_prior 1 [fs8, sigma_v, epsilon] = some ⊥ ∧
      RSDModel.log_prior 3 [fs8, sigma_v, epsilon] = some ⊥) ∧
    (¬ (0.1 < fs8 ∧ fs8 < 2.0 ∧ 0.8 < epsilon ∧ epsilon < 1.2) →
      RSDModel.log_prior 2 [fs8, epsilon] = some ⊥) := by
  have hb : ((0 : WithBot ℚ)) ≠ ⊥ := by decide
  by_cases h3 : (0.1 < fs8 ∧ fs8 < 2.0 ∧ 1 < sigma_v ∧ sigma_v < 500 ∧
      0.8 < epsilon ∧ epsilon < 1.2) <;>
    by_cases h2 : (0.1 < fs8 ∧ fs8 < 2.0 ∧ 0.8 < epsilon ∧ epsilon < 1.2) <;>
      simp [RSDModel.log_prior, h3, h2, hb, hb.symm]

/-- Witness for C4: the fit's prior at the boundary `fs8 = 0.1` is `-inf`,
and at an interior point it is exactly `0`. -/
theorem log_prior_flat_bounds_witness :
    RSDModel.log_prior 1 [0.1, 360, 1] = some ⊥ ∧
    RSDModel.log_prior 1 [0.2, 360, 1] = some 0 :=
  ⟨((log_prior_flat_bounds 0.1 360 1).2.2.2.1 (by norm_num)).1,
   (log_prior_flat_bounds 0.2 360 1).1.mpr (by norm_num)⟩

/-- C9: the combined log-probability equals `log_prior + log_likelihood` when
the prior is finite, and is `-inf` when the prior is `-inf`, for every
likelihood evaluation `ll` (even a raising one, `ll = none`): the likelihood
is not consulted at rejected points. -/
theorem log_probability_short_circuit (model : ℤ) (theta : List ℚ) (lp : WithBot ℚ)
    (h : RSDModel.log_prior model theta = some lp) :
    (lp = ⊥ → ∀ ll : Option ℚ, RSDModel.log_probability model theta ll = some ⊥) ∧
    (lp ≠ ⊥ → ∀ v : ℚ, RSDModel.log_probability model theta (some v) =
      some (lp + (v : WithBot ℚ))) := by
  constructor
  · intro hbot ll
    simp [RSDModel.log_probability, h, hbot]
  · intro hne v
    simp [RSDModel.log_probability, h, hne]

/-- Witness for C9: at an out-of-bounds point the likelihood is skipped
(`ll = none` yet the result is `-inf`); at an in-bounds point the result is
the sum. -/
theorem log_probability_short_circuit_witness :
    RSDModel.log_probability 2 [0, 1] none = some ⊥ ∧
    RSDModel.log_probability 2 [1, 1] (some 5) =
      some ((0 : WithBot ℚ) + ((5 : ℚ) : WithBot ℚ)) :=
  ⟨(log_probability_short_circuit 2 [0, 1] ⊥ (by norm_num [RSDModel.log_prior])).1 rfl none,
   (log_probability_short_circuit 2 [1, 1] 0 (by norm_num [RSDModel.log_prior])).2
     (by decide) 5⟩

/-! ## Theorems: likelihood value and correlation reader -/

/-- The residual vector of a list against itself is identically zero. -/
lemma getD_zipWith_sub_self (v : List ℝ) (i : ℕ) :
    (List.zipWith (fun a b => a - b) v v).getD i 0 = 0 := by
  rw [List.zipWith_same]
  rw [List.getD_eq_getElem?_getD, List.getElem?_map]
  cases h : v[i]? <;> simp [h]

/-- `chi2` vanishes on equal model and data vectors, for any matrix. -/
lemma chi2_self (v : List ℝ) (icov : ℕ → ℕ → ℝ) : chi2 v v icov = 0 := by
  unfold chi2
  refine List.sum_eq_zero ?_
  intro x hx
  rcases List.mem_map.mp hx with ⟨j, _, rfl⟩
  rw [getD_zipWith_sub_self, mul_zero]

/-- C3: `log_likelihood` returns
`-(nmocks/2) * ln(1 + chi2/(nmocks-1))` with `chi2` the Mahalanobis distance
of `modelvec` (monopole++quadrupole when `full_fit`, quadrupole only
otherwise) against `datavec`; when the model moments equal the data moments,
`chi2 = 0` and the log-likelihood is exactly `0` whatever the covariance. -/
theorem log_likelihood_formula_and_zero (full_fit : Bool)
    (xi0 xi2 xi0_s xi2_s : List ℝ) (icov : ℕ → ℕ → ℝ) :
    (RSDModel.log_likelihood_value full_fit xi0 xi2 xi0_s xi2_s icov =
      -(RSDModel.nmocks / 2) * Real.log (1 +
        RSDModel.chi2 (if full_fit then xi0 ++ xi2 else xi2)
          (if full_fit then xi0_s ++ xi2_s else xi2_s) icov /
        (RSDModel.nmocks - 1))) ∧
    (xi0 = xi0_s → xi2 = xi2_s →
      RSDModel.chi2 (if full_fit then xi0 ++ xi2 else xi2)
          (if full_fit then xi0_s ++ xi2_s else xi2_s) icov = 0 ∧
      RSDModel.log_likelihood_value full_fit xi0 xi2 xi0_s xi2_s icov = 0) := by
  refine ⟨rfl, ?_⟩
  rintro rfl rfl
  refine ⟨chi2_self _ icov, ?_⟩
  simp [RSDModel.log_likelihood_value, chi2_self]

/-- Witness for C3: a full-fit evaluation with model moments equal to the
data moments has log-likelihood exactly `0`, with a nontrivial covariance. -/
theorem log_likelihood_zero_witness :
    RSDModel.log_likelihood_value true [1] [2] [1] [2] (fun _ _ => 37) = 0 :=
  ((log_likelihood_formula_and_zero true [1] [2] [1] [2] (fun _ _ => 37)).2 rfl rfl).2

/-- `np.unique` output is strictly sorted. -/
lemma npUnique_sorted_lt (l : List ℚ) :
    List.Sorted (fun a b => a < b) (RSDModel.npUnique l) := by
  have hle : List.Sorted (fun a b : ℚ => a ≤ b) (RSDModel.npUnique l) :=
    List.sorted_insertionSort _ _
  have hnd : (RSDModel.npUnique l).Nodup :=
    ((List.perm_insertionSort _ _).nodup_iff).mpr (List.nodup_dedup l)
  exact hle.lt_of_le hnd

/-- `getD` through a `map` over `List.range`. -/
lemma getD_map_range {β : Type} (n : ℕ) (f : ℕ → β) (j : ℕ) (d : β) (h : j < n) :
    (((List.range n).map f).getD j d) = f j := by
  rw [List.getD_eq_getElem?_getD, List.getElem?_map,
    List.getElem?_eq_getElem (by simpa using h)]
  simp

/-- C10: `readCorrFile` returns strictly increasing (hence deduplicated)
`s` and `mu` sequences, a grid of shape `(|s|, |mu|)`, and the grid entry
`[j, i]` is the `xi` value of input row `i * |s| + j` (mu-major input
layout). -/
theorem readCorrFile_grid_spec (rows : List RSDModel.CorrRow) :
    List.Sorted (fun a b => a < b) (RSDModel.readCorrFile rows).1 ∧
    List.Sorted (fun a b => a < b) (RSDModel.readCorrFile rows).2.1 ∧
    (RSDModel.readCorrFile rows).2.2.length = (RSDModel.readCorrFile rows).1.length ∧
    (∀ row ∈ (RSDModel.readCorrFile rows).2.2,
      row.length = (RSDModel.readCorrFile rows).2.1.length) ∧
    (∀ i j, i < (RSDModel.readCorrFile rows).2.1.length →
      j < (RSDModel.readCorrFile rows).1.length →
      ∀ hrow : i * (RSDModel.readCorrFile rows).1.length + j < rows.length,
      (((RSDModel.readCorrFile rows).2.2.getD j []).getD i 0 =
        (rows.get ⟨i * (RSDModel.readCorrFile rows).1.length + j, hrow⟩).xi)) := by
  refine ⟨npUnique_sorted_lt _, npUnique_sorted_lt _, by simp [RSDModel.readCorrFile], ?_, ?_⟩
  · intro row hrow
    simp only [RSDModel.readCorrFile, List.mem_map] at hrow
    rcases hrow with ⟨j, _, rfl⟩
    simp [RSDModel.readCorrFile]
  · intro i j hi hj hrow
    simp only [RSDModel.readCorrFile] at hi hj hrow ⊢
    rw [getD_map_range _ _ _ _ hj, getD_map_range _ _ _ _ hi,
      List.getElem?_eq_getElem hrow]
    simp [List.get_eq_getElem]

/-- Witness for C10: a 2x2 table listed mu-major; the grid entry `[0, 1]`
(s-index 0, mu-index 1) is the xi value of input row `1 * 2 + 0 = 2`. -/
theorem readCorrFile_grid_spec_witness :
    (((RSDModel.readCorrFile
        [⟨1, 0, 10⟩, ⟨2, 0, 20⟩, ⟨1, 1, 11⟩, ⟨2, 1, 21⟩]).2.2.getD 0 []).getD 1 0 =
      (([⟨1, 0, 10⟩, ⟨2, 0, 20⟩, ⟨1, 1, 11⟩, ⟨2, 1, 21⟩] :
        List RSDModel.CorrRow).get ⟨1 * (RSDModel.readCorrFile
          [⟨1, 0, 10⟩, ⟨2, 0, 20⟩, ⟨1, 1, 11⟩, ⟨2, 1, 21⟩]).1.length + 0,
          by decide⟩).xi) :=
  (readCorrFile_grid_spec _).2.2.2.2 1 0 (by decide) (by decide) (by decide)

/-! ## Theorems: profile rescaling and extrapolation policy -/

/-- The trapezoid rule on a constant integrand telescopes to
`c * (last - first)`. -/
lemma trapz_map_const {α : Type} [LinearOrderedField α] (c : α) :
    ∀ xs : List α, RSDModel.trapz (xs.map (fun _ => c)) xs =
      c * ((xs.getLast?).getD 0 - xs.headD 0)
  | [] => by simp [RSDModel.trapz]
  | [x] => by simp [RSDModel.trapz]
  | x0 :: x1 :: xs => by
      have ih := trapz_map_const c (x1 :: xs)
      simp only [List.map_cons, RSDModel.trapz] at ih ⊢
      rw [ih, List.getLast?_cons_cons]
      simp only [List.headD_cons]
      ring

lemma range_getLast100 : (List.range 100).getLast? = some 99 := by decide

lemma linspace_headD : ((RSDModel.linspace (0:ℝ) 1 100).headD 0) = 0 := by
  rw [RSDModel.linspace, show (100 : ℕ) = 99 + 1 from rfl, List.range_succ_eq_map]
  simp

lemma linspace_getLast : (((RSDModel.linspace (0:ℝ) 1 100).getLast?).getD 0) = 1 := by
  rw [RSDModel.linspace, List.getLast?_map, range_getLast100]
  norm_num

/-- With `alpha_perp = alpha_para = 1` the anisotropic stretch factor is
identically `1` and the trapezoidal average returns the radius unchanged. -/
lemma rescaledRadius_one (r : ℝ) : RSDModel.rescaledRadius 1 1 r = r := by
  simp only [RSDModel.rescaledRadius, one_pow, div_one, sub_self, mul_zero, add_zero,
    Real.sqrt_one, mul_one]
  rw [trapz_map_const, linspace_headD, linspace_getLast]
  ring

/-- Identity rescaling leaves the radius grid unchanged. -/
lemma map_rescaledRadius_one (knots : List ℝ) :
    knots.map (RSDModel.rescaledRadius 1 1) = knots := by
  rw [List.map_congr_left (fun a _ => rescaledRadius_one a)]
  exact List.map_id _

/-- C7: for `alpha_perp = alpha_para = 1` the rescaling step is the identity:
the trapezoidal average of `r * alpha_para * sqrt(1 + (1 - mu^2) *
(alpha_perp^2/alpha_para^2 - 1))` over `mu ∈ [0, 1]` equals `r` for every
sampled radius, so a profile interpolant rebuilt on the rescaled radius axis
agrees with the interpolant on the original axis at every point. -/
theorem identity_rescaling (r : ℝ) :
    RSDModel.rescaledRadius 1 1 r = r ∧
    (∀ (knots vals : List ℝ) (ext : ℕ) (t : ℝ),
      RSDModel.splineEval (knots.map (RSDModel.rescaledRadius 1 1)) vals ext t =
        RSDModel.splineEval knots vals ext t) :=
  ⟨rescaledRadius_one r,
   fun knots vals ext t => by rw [map_rescaledRadius_one]⟩

/-- `ext = 3` clamps to the first sample value below the sampled range. -/
lemma splineEval_ext3_below {xs ys : List ℝ} {t : ℝ} (h : t < xs.headD 0) :
    RSDModel.splineEval xs ys 3 t = ys.headD 0 := by
  rw [RSDModel.splineEval, if_pos rfl, if_pos h]

/-- `ext = 3` clamps to the last sample value above the sampled range. -/
lemma splineEval_ext3_above {xs ys : List ℝ} {t : ℝ} (h1 : xs.headD 0 ≤ t)
    (h2 : (xs.getLast?).getD 0 < t) :
    RSDModel.splineEval xs ys 3 t = (ys.getLast?).getD 0 := by
  rw [RSDModel.splineEval, if_pos rfl, if_neg (not_lt.mpr h1), if_pos h2]

/-- C5 (amended): every profile interpolant built with `ext=3` — all six
`__init__` profiles and every rescaled profile except the rescaled `xi_r` —
clamps to the boundary sample value outside its sampled domain.  The rescaled
real-space correlation `rescaled_xi_r` of all three evaluators is built
without the `ext` keyword and is excluded. -/
theorem clamp_policy_all_but_rescaled_xi_r (ap aa : ℝ) (x vals : List ℝ) :
    (RSDModel.xi_r x vals = RSDModel.splineEval x vals 3 ∧
     RSDModel.delta_r x vals = RSDModel.splineEval x vals 3 ∧
     RSDModel.Delta_r x vals = RSDModel.splineEval x vals 3 ∧
     RSDModel.sv x vals = RSDModel.splineEval x vals 3 ∧
     RSDModel.vr x vals = RSDModel.splineEval x vals 3 ∧
     RSDModel.dvr x vals = RSDModel.splineEval x vals 3) ∧
    (RSDModel.model1_rescaled_delta_r ap aa x vals =
        RSDModel.splineEval (x.map (RSDModel.rescaledRadius ap aa)) vals 3 ∧
     RSDModel.model1_rescaled_Delta_r ap aa x vals =
        RSDModel.splineEval (x.map (RSDModel.rescaledRadius ap aa)) vals 3 ∧
     RSDModel.model1_rescaled_sv ap aa x vals =
        RSDModel.splineEval (x.map (RSDModel.rescaledRadius ap aa)) vals 3 ∧
     RSDModel.model2_rescaled_delta_r ap aa x vals =
        RSDModel.splineEval (x.map (RSDModel.rescaledRadius ap aa)) vals 3 ∧
     RSDModel.model2_rescaled_Delta_r ap aa x vals =
        RSDModel.splineEval (x.map (RSDModel.rescaledRadius ap aa)) vals 3 ∧
     RSDModel.model3_rescaled_delta_r ap aa x vals =
        RSDModel.splineEval (x.map (RSDModel.rescaledRadius ap aa)) vals 3 ∧
     RSDModel.model3_rescaled_Delta_r ap aa x vals =
        RSDModel.splineEval (x.map (RSDModel.rescaledRadius ap aa)) vals 3 ∧
     RSDModel.model3_rescaled_vr ap aa x vals =
        RSDModel.splineEval (x.map (RSDModel.rescaledRadius ap aa)) vals 3 ∧
     RSDModel.model3_rescaled_dvr ap aa x vals =
        RSDModel.splineEval (x.map (RSDModel.rescaledRadius ap aa)) vals 3 ∧
     RSDModel.model3_rescaled_sv ap aa x vals =
        RSDModel.splineEval (x.map (RSDModel.rescaledRadius ap aa)) vals 3) ∧
    (∀ (xs ys : List ℝ) (t : ℝ),
      (t < xs.headD 0 → RSDModel.splineEval xs ys 3 t = ys.headD 0) ∧
      (xs.headD 0 ≤ t → (xs.getLast?).getD 0 < t →
        RSDModel.splineEval xs ys 3 t = (ys.getLast?).getD 0)) :=
  ⟨⟨rfl, rfl, rfl, rfl, rfl, rfl⟩,
   ⟨rfl, rfl, rfl, rfl, rfl, rfl, rfl, rfl, rfl, rfl⟩,
   fun xs ys t =>
     ⟨fun h => splineEval_ext3_below h, fun h1 h2 => splineEval_ext3_above h1 h2⟩⟩

/-- Witness for C5 (amended): an `ext=3` interpolant on knots `[1, 2]` clamps
to the boundary samples at the out-of-range queries `0` and `7`. -/
theorem clamp_policy_witness :
    RSDModel.splineEval [1, 2] [5, 6] 3 0 = (([5, 6] : List ℝ).headD 0) ∧
    RSDModel.splineEval [1, 2] [5, 6] 3 7 = ((([5, 6] : List ℝ).getLast?).getD 0) :=
  ⟨((clamp_policy_all_but_rescaled_xi_r 1 1 [] []).2.2 [1, 2] [5, 6] 0).1
      (by norm_num [List.headD_cons]),
   ((clamp_policy_all_but_rescaled_xi_r 1 1 [] []).2.2 [1, 2] [5, 6] 7).2
      (by norm_num [List.headD_cons])
      (by norm_num [List.getLast?_cons_cons, List.getLast?_singleton])⟩

/-- Counterexample for C5: the rescaled `xi_r` of `model1_theory` (line 199,
built without `ext=3`) does not clamp: on the 4-sample profile
`(r, xi) = ([1,2,3,4], [0,1,0,1])` with the identity geometry
`alpha_perp = alpha_para = 1`, the query `t = 5` beyond the right end of the
sampled domain returns the extrapolated cubic value `8`, not the boundary
sample value `1`. -/
theorem rescaled_xi_r_extrapolates :
    RSDModel.model1_rescaled_xi_r 1 1 [1, 2, 3, 4] [0, 1, 0, 1] 5 ≠
      ((([0, 1, 0, 1] : List ℝ).getLast?).getD 0) := by
  rw [RSDModel.model1_rescaled_xi_r, map_rescaledRadius_one]
  rw [show ((([0, 1, 0, 1] : List ℝ).getLast?).getD 0) = 1 by
    norm_num [List.getLast?_cons_cons, List.getLast?_singleton]]
  rw [RSDModel.splineEval, if_neg (by norm_num), RSDModel.polyInterp]
  norm_num [List.range_succ]

/-! ## Theorems: the Kaiser-like evaluator at vanishing growth (model 2) -/

/-- Lower bound for the trapezoid rule from a pointwise lower bound on an
increasing grid. -/
lemma le_trapz_map {α : Type} [LinearOrderedField α] (c : α) (g : α → α) :
    ∀ xs : List α, List.Chain' (fun a b => a ≤ b) xs → (∀ x ∈ xs, c ≤ g x) →
      c * (((xs.getLast?).getD 0) - xs.headD 0) ≤ RSDModel.trapz (xs.map g) xs
  | [] => by simp [RSDModel.trapz]
  | [x] => by simp [RSDModel.trapz]
  | x0 :: x1 :: xs => by
      intro hch hg
      obtain ⟨h01, hch2⟩ := List.chain'_cons.mp hch
      have ih := le_trapz_map c g (x1 :: xs) hch2
        (fun x hx => hg x (List.mem_cons_of_mem _ hx))
      simp only [List.map_cons, RSDModel.trapz] at ih ⊢
      rw [List.getLast?_cons_cons]
      simp only [List.headD_cons] at ih ⊢
      have hg0 : c ≤ g x0 := hg x0 (by simp)
      have hg1 : c ≤ g x1 := hg x1 (by simp)
      nlinarith [mul_le_mul_of_nonneg_left (by linarith : 2 * c ≤ g x0 + g x1)
        (by linarith : (0:α) ≤ x1 - x0)]

/-- A constant factor pulls out of the trapezoid rule. -/
lemma trapz_map_mul {α : Type} [LinearOrderedField α] (c : α) (g : α → α) :
    ∀ xs : List α, RSDModel.trapz (xs.map (fun m => c * g m)) xs =
      c * RSDModel.trapz (xs.map g) xs
  | [] => by simp [RSDModel.trapz]
  | [x] => by simp [RSDModel.trapz]
  | x0 :: x1 :: xs => by
      have ih := trapz_map_mul c g (x1 :: xs)
      simp only [List.map_cons, RSDModel.trapz] at ih ⊢
      rw [ih]
      ring

lemma linspace_chain : List.Chain' (fun a b : ℝ => a ≤ b) (RSDModel.linspace (0:ℝ) 1 100) := by
  refine List.Pairwise.chain' ?_
  refine List.Pairwise.map _ ?_ (List.pairwise_lt_range 100)
  intro a b hab
  have hc : (0:ℝ) < ((100:ℕ):ℝ) - 1 := by norm_num
  have hcast : (a:ℝ) ≤ b := Nat.cast_le.mpr hab.le
  exact add_le_add_left ((div_le_div_iff_of_pos_right hc).mpr
    (mul_le_mul_of_nonneg_left hcast (by norm_num))) 0

lemma linspace_mem_bounds {m : ℝ} (hm : m ∈ RSDModel.linspace (0:ℝ) 1 100) :
    0 ≤ m ∧ m ≤ 1 := by
  rw [RSDModel.linspace] at hm
  rcases List.mem_map.mp hm with ⟨i, hi, rfl⟩
  have hi2 : i ≤ 99 := Nat.lt_succ_iff.mp (List.mem_range.mp hi)
  have h9 : ((100:ℕ):ℝ) - 1 = 99 := by norm_num
  constructor
  · positivity
  · rw [h9, zero_add, show (1:ℝ) - 0 = 1 by norm_num, one_mul,
      div_le_one (by norm_num : (0:ℝ) < 99)]
    exact_mod_cast hi2

/-- The stretch factor of the `alpha_perp = 2, alpha_para = 1` geometry is at
least `1` (the integrand is pointwise at least `1` on `[0, 1]`). -/
lemma stretchT_ge_one : 1 ≤ RSDModel.stretchT := by
  have hbound : ∀ x ∈ RSDModel.linspace (0:ℝ) 1 100,
      (1:ℝ) ≤ Real.sqrt (1 + (1 - x ^ 2) * 3) := by
    intro x hx
    obtain ⟨h0, h1⟩ := linspace_mem_bounds hx
    have harg : (1:ℝ) ≤ 1 + (1 - x ^ 2) * 3 := by nlinarith
    calc (1:ℝ) = Real.sqrt 1 := Real.sqrt_one.symm
    _ ≤ Real.sqrt (1 + (1 - x ^ 2) * 3) := Real.sqrt_le_sqrt harg
  calc (1:ℝ) = 1 * (((RSDModel.linspace (0:ℝ) 1 100).getLast?).getD 0 -
      (RSDModel.linspace (0:ℝ) 1 100).headD 0) := by
        rw [linspace_getLast, linspace_headD]; norm_num
  _ ≤ RSDModel.stretchT := le_trapz_map 1 _ _ linspace_chain hbound

/-- In the `alpha_perp = 2, alpha_para = 1` geometry every radius is rescaled
by the constant factor `stretchT`. -/
lemma rescaledRadius_two_one (r : ℝ) :
    RSDModel.rescaledRadius 2 1 r = r * RSDModel.stretchT := by
  simp only [RSDModel.rescaledRadius, RSDModel.stretchT]
  have hcongr : ∀ m ∈ RSDModel.linspace (0:ℝ) 1 100,
      (r * 1) * Real.sqrt (1 + (1 - m ^ 2) * ((2:ℝ) ^ 2 / 1 ^ 2 - 1)) =
        r * Real.sqrt (1 + (1 - m ^ 2) * 3) := by
    intro m _
    norm_num
  rw [List.map_congr_left hcongr, trapz_map_mul r (fun m => Real.sqrt (1 + (1 - m ^ 2) * 3))]

/-- Lagrange interpolation through `(k·T, k)`, `k = 1..4`, is `t ↦ t / T`. -/
lemma polyInterp_scaled_linear (T t : ℝ) (hT : T ≠ 0) :
    RSDModel.polyInterp [T, 2*T, 3*T, 4*T] [1, 2, 3, 4] t = t / T := by
  rw [RSDModel.polyInterp]
  norm_num [List.range_succ]
  have d01 : T - 2*T ≠ 0 := by intro h; apply hT; linarith
  have d02 : T - 3*T ≠ 0 := by intro h; apply hT; linarith
  have d03 : T - 4*T ≠ 0 := by intro h; apply hT; linarith
  have d10 : 2*T - T ≠ 0 := by intro h; apply hT; linarith
  have d12 : 2*T - 3*T ≠ 0 := by intro h; apply hT; linarith
  have d13 : 2*T - 4*T ≠ 0 := by intro h; apply hT; linarith
  have d20 : 3*T - T ≠ 0 := by intro h; apply hT; linarith
  have d21 : 3*T - 2*T ≠ 0 := by intro h; apply hT; linarith
  have d23 : 3*T - 4*T ≠ 0 := by intro h; apply hT; linarith
  have d30 : 4*T - T ≠ 0 := by intro h; apply hT; linarith
  have d31 : 4*T - 2*T ≠ 0 := by intro h; apply hT; linarith
  have d32 : 4*T - 3*T ≠ 0 := by intro h; apply hT; linarith
  field_simp
  ring

/-- The radius grid `[1,2,3,4]` rescaled by the `(2, 1)` geometry. -/
lemma map_rescaledRadius_two_one :
    ([1, 2, 3, 4] : List ℝ).map (RSDModel.rescaledRadius 2 1) =
      [RSDModel.stretchT, 2 * RSDModel.stretchT,
       3 * RSDModel.stretchT, 4 * RSDModel.stretchT] := by
  simp only [List.map_cons, List.map_nil, rescaledRadius_two_one, one_mul]

/-- `model2_theory` per-`(s,mu)` value at `fs8 = 0`, `s = 1`, `mu = 0` in the
`(2, 1)` geometry: the undistorted radius is `true_s = 2`. -/
lemma model2_ce_mu0 :
    RSDModel.model2_xiModel 1 0 2 1 [1, 2, 3, 4] [1, 2, 3, 4] [0, 0, 0, 0] [0, 0, 0, 0] 1 0 =
      2 / RSDModel.stretchT := by
  have hT : RSDModel.stretchT ≠ 0 := by
    have := stretchT_ge_one; intro h; rw [h] at this; norm_num at this
  have h4 : Real.sqrt 4 = 2 := by
    rw [show (4:ℝ) = 2 ^ 2 by norm_num]
    exact Real.sqrt_sq (by norm_num)
  simp only [RSDModel.model2_xiModel, RSDModel.model2_rescaled_xi_r,
    RSDModel.model2_rescaled_delta_r, RSDModel.model2_rescaled_Delta_r,
    RSDModel.splineEval, map_rescaledRadius_two_one]
  norm_num [Real.sqrt_one, h4]
  rw [polyInterp_scaled_linear _ _ hT]

/-- `model2_theory` per-`(s,mu)` value at `fs8 = 0`, `s = 1`, `mu = 1` in the
`(2, 1)` geometry: the undistorted radius is `true_s = 1`. -/
lemma model2_ce_mu1 :
    RSDModel.model2_xiModel 1 0 2 1 [1, 2, 3, 4] [1, 2, 3, 4] [0, 0, 0, 0] [0, 0, 0, 0] 1 1 =
      1 / RSDModel.stretchT := by
  have hT : RSDModel.stretchT ≠ 0 := by
    have := stretchT_ge_one; intro h; rw [h] at this; norm_num at this
  simp only [RSDModel.model2_xiModel, RSDModel.model2_rescaled_xi_r,
    RSDModel.model2_rescaled_delta_r, RSDModel.model2_rescaled_Delta_r,
    RSDModel.splineEval, map_rescaledRadius_two_one]
  norm_num [Real.sqrt_one, Real.sqrt_zero]
  rw [polyInterp_scaled_linear _ _ hT]
  exact one_div _

/-- Counterexample for C6: with `fs8 = 0` but an anisotropic geometry
(`alpha_perp = 2, alpha_para = 1`, as produced by any `epsilon ≠ 1`),
`model2_theory`'s per-`(s, mu)` prediction is *not* independent of `mu`:
on the profile `xi_r = id` sampled at `[1,2,3,4]` the predictions at
`(s, mu) = (1, 0)` and `(1, 1)` differ (`2/stretchT` versus `1/stretchT`),
so it cannot equal a function of `s` alone. -/
theorem model2_fs8zero_mu_dependence :
    RSDModel.model2_xiModel 1 0 2 1 [1, 2, 3, 4] [1, 2, 3, 4] [0, 0, 0, 0] [0, 0, 0, 0] 1 0 ≠
      RSDModel.model2_xiModel 1 0 2 1 [1, 2, 3, 4] [1, 2, 3, 4] [0, 0, 0, 0] [0, 0, 0, 0] 1 1 := by
  rw [model2_ce_mu0, model2_ce_mu1]
  intro h
  have hT : RSDModel.stretchT ≠ 0 := by
    have := stretchT_ge_one; intro hz; rw [hz] at this; norm_num at this
  have h2 := congrArg (fun x => x * RSDModel.stretchT) h
  simp only [div_mul_cancel₀ _ hT] at h2
  norm_num at h2

/-- C6 (amended): with `fs8 = 0` and the undistorted geometry
`alpha_perp = alpha_para = 1` (the geometry at `epsilon = 1`, which is what
"no distortion" presumes), `model2_theory`'s per-`(s, mu)` prediction equals
the real-space correlation interpolant at `s` — independent of `mu`, and the
rescaled axis coincides with the original one. -/
theorem model2_fs8zero_undistorted (s8norm : ℝ) (r y1 y2 y3 : List ℝ) (s mu : ℝ)
    (hs : 0 < s) (hmu : mu ^ 2 ≤ 1) :
    RSDModel.model2_xiModel s8norm 0 1 1 r y1 y2 y3 s mu =
      RSDModel.splineEval r y1 0 s := by
  have hsq : Real.sqrt ((s * mu * 1) ^ 2 + (s * Real.sqrt (1 - mu ^ 2) * 1) ^ 2) = s := by
    rw [mul_one, mul_one, mul_pow s (Real.sqrt (1 - mu ^ 2)) 2,
      Real.sq_sqrt (by linarith : (0:ℝ) ≤ 1 - mu ^ 2),
      show (s * mu) ^ 2 + s ^ 2 * (1 - mu ^ 2) = s ^ 2 by ring]
    exact Real.sqrt_sq hs.le
  simp only [RSDModel.model2_xiModel, RSDModel.model2_rescaled_xi_r,
    RSDModel.model2_rescaled_delta_r, RSDModel.model2_rescaled_Delta_r,
    map_rescaledRadius_one, hsq]
  norm_num

/-- Witness for C6 (amended): a concrete undistorted evaluation. -/
theorem model2_fs8zero_undistorted_witness :
    RSDModel.model2_xiModel 1 0 1 1 [1, 2, 3, 4] [5, 6, 7, 8] [0, 0, 0, 0] [0, 0, 0, 0]
        1 (1/2) =
      RSDModel.splineEval [1, 2, 3, 4] [5, 6, 7, 8] 0 1 :=
  model2_fs8zero_undistorted 1 [1, 2, 3, 4] [5, 6, 7, 8] [0, 0, 0, 0] [0, 0, 0, 0]
    1 (1/2) (by norm_num) (by norm_num)

/-! ## Theorems: multipole reduction equivalence -/

/-- Zipping a strictly sorted key list with values gives pairs sorted (non-
strictly) by first component. -/
lemma sorted_zip_fst {mu : List ℚ} (vals : List ℚ)
    (h : List.Sorted (fun a b : ℚ => a < b) mu) :
    List.Sorted (fun p q : ℚ × ℚ => p.1 ≤ q.1) (mu.zip vals) := by
  induction mu generalizing vals with
  | nil => simp
  | cons a l ih =>
    cases vals with
    | nil => simp
    | cons b vs =>
      rw [List.zip_cons_cons]
      obtain ⟨hhead, htail⟩ := List.sorted_cons.mp h
      refine List.sorted_cons.mpr ⟨?_, ih vs htail⟩
      rintro ⟨x, y⟩ hp
      exact (hhead x (List.of_mem_zip hp).1).le

/-- C8: the reader's multipole extraction (`_getMonopole`/`_getQuadrupole`)
and the per-`s` reduction inside the theory evaluators are the same
computation: on identical (sorted) `(mu, value)` samples, the evaluator's
argsort-then-interpolate-then-Simpson reduction returns exactly the reader's
monopole and quadrupole. -/
theorem multipole_reduction_equivalence (mu vals : List ℚ)
    (hsorted : List.Sorted (fun a b => a < b) mu) (hlen : mu.length = vals.length) :
    RSDModel.modelMultipoles mu vals =
      (RSDModel.getMonopole_row mu vals, RSDModel.getQuadrupole_row mu vals) := by
  unfold RSDModel.modelMultipoles
  rw [List.Sorted.insertionSort_eq (sorted_zip_fst vals hsorted)]
  simp only [List.map_fst_zip _ _ (le_of_eq hlen), List.map_snd_zip _ _ (ge_of_eq hlen)]

/-- Witness for C8: the two reductions agree on a concrete sorted 4-sample
row. -/
theorem multipole_reduction_equivalence_witness :
    RSDModel.modelMultipoles [-1, 0, 1/2, 1] [2, 3, 5, 7] =
      (RSDModel.getMonopole_row [-1, 0, 1/2, 1] [2, 3, 5, 7],
       RSDModel.getQuadrupole_row [-1, 0, 1/2, 1] [2, 3, 5, 7]) :=
  multipole_reduction_equivalence [-1, 0, 1/2, 1] [2, 3, 5, 7]
    (by norm_num [List.sorted_cons]) rfl

end RSDModel
